import Mathlib

/-!
Verification development for the bento-cli bulk-operation safety guard and
the sequences email commands.

The command handlers under `src/commands` are embedded directly from the
TypeScript source.  The collaborators that the repository imports but whose
source files are not part of the tree (`core/safety`, `core/output`,
`core/sdk`, `commands/subscribers/helpers`) are modelled from the
specification; each such definition carries a doc comment starting with
`Modelled from the spec:`.

Effects (file reads, remote API calls, terminal output) are made observable
as an explicit list of `Event` values returned next to each function's
result, so that statements such as "the execution callback is never
invoked" or "no file is read" become statements about the event trace.
-/

/-- Decidable equality for `Except`, used to evaluate concrete runs of the
embedded commands. -/
instance {ε α : Type} [DecidableEq ε] [DecidableEq α] : DecidableEq (Except ε α)
  | Except.ok x, Except.ok y =>
    if h : x = y then isTrue (by rw [h]) else isFalse (fun hh => h (Except.ok.inj hh))
  | Except.error x, Except.error y =>
    if h : x = y then isTrue (by rw [h]) else isFalse (fun hh => h (Except.error.inj hh))
  | Except.ok _, Except.error _ => isFalse (fun hh => Except.noConfusion hh)
  | Except.error _, Except.ok _ => isFalse (fun hh => Except.noConfusion hh)

/-- Splitting a character list at every occurrence of a separator, the way
`String.prototype.split` behaves in JavaScript (an empty input yields one
empty field; a trailing separator yields a trailing empty field). -/
def splitChars (sep : Char) : List Char → List (List Char)
  | [] => [[]]
  | c :: cs =>
    let r := splitChars sep cs
    if c == sep then [] :: r
    else
      match r with
      | g :: gs => (c :: g) :: gs
      | [] => [[c]]

/-- Whitespace trimming on character lists (model of `String.prototype.trim`). -/
def trimChars (l : List Char) : List Char :=
  ((l.dropWhile Char.isWhitespace).reverse.dropWhile Char.isWhitespace).reverse

/-- Whitespace trimming on strings. -/
def trimStr (s : String) : String := String.mk (trimChars s.data)

/-- Character-list version of the starts-with test. -/
def charsMatch : List Char → List Char → Bool
  | [], _ => true
  | _ :: _, [] => false
  | a :: as, b :: bs => a == b && charsMatch as bs

/-- Whether `s` starts with `p` (model of `String.prototype.startsWith`). -/
def startsWithStr (p s : String) : Bool := charsMatch p.data s.data

/-- Strict decimal parsing: every character a digit and at least one digit,
otherwise `none`.  Used to model the canonical-integer checks of the CLI. -/
def parseNatStr (s : String) : Option Nat :=
  if !s.data.isEmpty && s.data.all Char.isDigit then
    some (s.data.foldl (fun acc c => acc * 10 + (c.toNat - 48)) 0)
  else none

/-- JavaScript truthiness of an optional string flag value: absent and the
empty string are both falsy, every other string is truthy. -/
def truthy : Option String → Bool
  | none => false
  | some s => !(s == "")

/-- File-system failure kinds distinguished by the CLI (`ENOENT`, `EACCES`,
anything else). -/
inductive FsCode
  | enoent
  | eacces
  | other
  deriving DecidableEq, Repr

/-- One rejected input row: original line number and raw value. -/
structure RejectedRow where
  line : Nat
  raw : String
  deriving DecidableEq, Repr

/-- A resolved target set: accepted emails in first-seen order plus the
rejected rows. -/
structure TargetSet where
  emails : List String
  errors : List RejectedRow
  deriving DecidableEq, Repr

/-- The `data` member of the unsubscribe JSON envelope
(`{ updated, action }`), from `emitResult` in
`src/commands/subscribers/unsubscribe.ts`. -/
structure UnsubscribeData where
  updated : Nat
  action : String
  deriving DecidableEq, Repr

/-- The `meta` member of the unsubscribe JSON envelope (`{ count }`). -/
structure UnsubscribeMeta where
  count : Nat
  deriving DecidableEq, Repr

/-- The machine-readable output envelope `{ success, error, data, meta }`. -/
structure Envelope where
  success : Bool
  error : Option String
  data : UnsubscribeData
  meta : UnsubscribeMeta
  deriving DecidableEq, Repr

/-- Observable effects of a command run. -/
inductive Event
  | fileRead (path : String)
  | errorEmitted (msg : String)
  | csvErrorPrinted (row : RejectedRow)
  | emptyReported
  | previewShown (count : Nat)
  | promptShown
  | apiUnsubscribe (email : String)
  | jsonEmitted (e : Envelope)
  | textEmitted (msg : String)
  | apiCreateEmail (sequenceId : String) (html : String)
  | apiUpdateEmail (templateId : String)
  deriving DecidableEq, Repr

/-- Parsed safety options (`--dry-run`, `--limit`, `--sample`, `--confirm`). -/
structure SafetyOptions where
  dryRun : Bool
  limit : Option Nat
  sample : Option Nat
  confirm : Bool
  deriving DecidableEq, Repr

/-- Invariant guaranteed by the safety option parser: `limit` and `sample`
are positive when present. -/
def safetyWf (options : SafetyOptions) : Prop :=
  (∀ k, options.limit = some k → 0 < k) ∧ (∀ k, options.sample = some k → 0 < k)

/-- One bulk operation: display name, full target list, per-item preview
formatter and the dangerousness flag. -/
structure OperationSpec (α β : Type) where
  name : String
  items : List α
  formatItem : α → β
  isDangerous : Bool

/-- The preview record built by the unsubscribe command: `(email) => ({ email })`. -/
structure PreviewRecord where
  email : String
  deriving DecidableEq, Repr

/-- Terminal states of the protection executor. -/
inductive ProtectOutcome (β : Type)
  | empty
  | previewed (preview : List β) (count : Nat)
  | aborted
  | rejected
  | executed (execError : Option String)
  deriving DecidableEq, Repr

/-- Execution environment of the confirmation gate: whether standard input
is attached to a terminal, and how the user would answer the prompt. -/
structure ProtectEnv where
  interactive : Bool
  userConfirms : Bool
  deriving DecidableEq, Repr

/-- Modelled from the spec: configuration-error message for supplying both
`--limit` and `--sample` (§4.2; `src/core/safety.ts` is not in the tree). -/
def bothFlagsMsg : String := "Cannot use --limit and --sample together."

/-- Modelled from the spec: configuration-error message for a flag value
that is not a positive integer (§4.2). -/
def invalidNumberMsg : String := "Flag value must be a positive integer."

/-- Raw options object received by the unsubscribe action
(`UnsubscribeOptions` in `src/commands/subscribers/unsubscribe.ts`). -/
structure UnsubscribeOpts where
  email : Option String
  file : Option String
  dryRun : Bool
  limit : Option String
  sample : Option String
  confirm : Bool
  deriving DecidableEq, Repr

/-- Modelled from the spec: parsing of one optional numeric flag by the
Safety Option Parser (§4.2): a present value must be a positive integer. -/
def parseOptNat : Option String → Except String (Option Nat)
  | none => Except.ok none
  | some s =>
    match parseNatStr s with
    | some n => if 0 < n then Except.ok (some n) else Except.error invalidNumberMsg
    | none => Except.error invalidNumberMsg

/-- Modelled from the spec: `Safety.parseOptions` (§4.2, `src/core/safety.ts`
missing): pure, no I/O; supplying both `--limit` and `--sample` is a
configuration error; numeric flags must parse as positive integers. -/
def parseOptions (o : UnsubscribeOpts) : Except String SafetyOptions :=
  if o.limit.isSome && o.sample.isSome then Except.error bothFlagsMsg
  else
    match parseOptNat o.limit with
    | Except.error m => Except.error m
    | Except.ok l =>
      match parseOptNat o.sample with
      | Except.error m => Except.error m
      | Except.ok s => Except.ok (SafetyOptions.mk o.dryRun l s o.confirm)

/-- Modelled from the spec: the Reduce state of the protection executor
(§4.3 step 1): a set limit takes a stable prefix, a set sample defers to
the injected sampler, otherwise the full set is used. -/
def reduceItems {α : Type} (options : SafetyOptions) (sampleFn : Nat → List α → List α)
    (items : List α) : List α :=
  match options.limit with
  | some k => items.take k
  | none =>
    match options.sample with
    | some k => sampleFn k items
    | none => items

/-- Modelled from the spec: states 1-5 of the protection executor (§4.3)
applied to an already-reduced working set. -/
def protectGo {α β : Type} (spec : OperationSpec α β) (options : SafetyOptions)
    (env : ProtectEnv) (execute : List α → List Event × Option String) (ws : List α) :
    List Event × ProtectOutcome β :=
  if ws.isEmpty then ([Event.emptyReported], ProtectOutcome.empty)
  else if options.dryRun then
    ([Event.previewShown ws.length], ProtectOutcome.previewed (ws.map spec.formatItem) ws.length)
  else if !spec.isDangerous || options.confirm then
    ((execute ws).1, ProtectOutcome.executed (execute ws).2)
  else if env.interactive then
    if env.userConfirms then
      (Event.promptShown :: (execute ws).1, ProtectOutcome.executed (execute ws).2)
    else ([Event.promptShown], ProtectOutcome.aborted)
  else ([], ProtectOutcome.rejected)

/-- Modelled from the spec: `safety.protect` (§4.3, `src/core/safety.ts`
missing): reduce, preview, dry-run check, confirmation gate, execute. -/
def protect {α β : Type} (spec : OperationSpec α β) (options : SafetyOptions)
    (env : ProtectEnv) (sampleFn : Nat → List α → List α)
    (execute : List α → List Event × Option String) : List Event × ProtectOutcome β :=
  protectGo spec options env execute (reduceItems options sampleFn spec.items)

/-- The per-target loop of the unsubscribe execution callback
(`for (const email of emails) await bento.unsubscribe(email)` at
`src/commands/subscribers/unsubscribe.ts:46-48`): each iteration awaits one
remote call and the first raised error propagates out of the loop. -/
def runUnsubscribeLoop (api : String → Except String Unit) :
    List String → List Event × Option String
  | [] => ([], none)
  | e :: rest =>
    match api e with
    | Except.ok _ =>
      let r := runUnsubscribeLoop api rest
      (Event.apiUnsubscribe e :: r.1, r.2)
    | Except.error m => ([Event.apiUnsubscribe e], some m)

/-- Embedding of `emitResult` from `src/commands/subscribers/unsubscribe.ts:60-75`:
machine-readable mode emits the `{ success, error, data, meta }` envelope,
human mode emits a success line. -/
def emitResult (jsonMode : Bool) (count : Nat) : List Event :=
  if jsonMode then
    [Event.jsonEmitted
      (Envelope.mk true none (UnsubscribeData.mk count "unsubscribe") (UnsubscribeMeta.mk count))]
  else
    [Event.textEmitted ("Unsubscribed " ++ toString count ++ " subscriber(s).")]

/-- The unsubscribe execution callback
(`src/commands/subscribers/unsubscribe.ts:45-50`): run the per-email loop;
only when every remote call succeeded is `emitResult` reached. -/
def executeCallback (api : String → Except String Unit) (jsonMode : Bool)
    (emails : List String) : List Event × Option String :=
  match runUnsubscribeLoop api emails with
  | (tr, some m) => (tr, some m)
  | (tr, none) => (tr ++ emitResult jsonMode emails.length, none)

/-- Modelled from the spec: the basic address-shape rule of the Target
Resolver (§4.1; `helpers.ts` is not in the tree): one `@` separating a
non-empty local part from a non-empty domain containing a dot. -/
def isValidEmail (s : String) : Bool :=
  match splitChars '@' s.data with
  | [lp, dp] => !lp.isEmpty && !dp.isEmpty && dp.any (fun c => c == '.')
  | _ => false

/-- Stripping one pair of surrounding double quotes from a CSV cell. -/
def stripQuotes (s : String) : String :=
  match s.data with
  | c :: rest =>
    if c == '"' && rest.getLast? == some '"' then String.mk rest.dropLast else s
  | [] => s

/-- Modelled from the spec: processing of one file row (§4.1): trim, skip
blank lines, take the first CSV column, validate the address shape,
deduplicate accepted values, record invalid rows with their line number. -/
def addRow (acc : TargetSet) (row : Nat × String) : TargetSet :=
  let t := trimStr row.2
  if t = "" then acc
  else
    let value := trimStr (stripQuotes (String.mk ((splitChars ',' t.data).headD t.data)))
    if isValidEmail value then
      if acc.emails.contains value then acc
      else TargetSet.mk (acc.emails ++ [value]) acc.errors
    else TargetSet.mk acc.emails (acc.errors ++ [RejectedRow.mk row.1 row.2])

/-- Modelled from the spec: parsing a target file (§4.1): split into lines,
number them 1-based, and fold `addRow` over them. -/
def parseTargetsFile (content : String) : TargetSet :=
  (((splitChars '\n' content.data).map String.mk).enum.map
      (fun p => Prod.mk (p.1 + 1) p.2)).foldl addRow (TargetSet.mk [] [])

/-- Modelled from the spec: `resolveEmailTargets` (§4.1, `helpers.ts`
missing): a truthy `--email` yields a singleton (or one rejected row),
a truthy `--file` reads and parses the file, neither signals
"no targets selected" as `none` rather than an empty set. -/
def resolveEmailTargets (email file : Option String) (fs : String → Except FsCode String) :
    List Event × Except FsCode (Option TargetSet) :=
  if truthy email then
    let e := email.getD ""
    if isValidEmail e then ([], Except.ok (some (TargetSet.mk [e] [])))
    else ([], Except.ok (some (TargetSet.mk [] [RejectedRow.mk 0 e])))
  else if truthy file then
    let p := file.getD ""
    match fs p with
    | Except.error c => ([Event.fileRead p], Except.error c)
    | Except.ok content => ([Event.fileRead p], Except.ok (some (parseTargetsFile content)))
  else ([], Except.ok none)

/-- Terminal result of one unsubscribe command invocation. -/
inductive UnsubOutcome
  | usageError
  | csvErrors (rows : List RejectedRow)
  | resolveFailure (code : FsCode)
  | configError (msg : String)
  | protectDone (o : ProtectOutcome PreviewRecord)
  deriving DecidableEq, Repr

/-- Usage message printed when no target selection was given
(`src/commands/subscribers/unsubscribe.ts:30`). -/
def selectTargetsMsg : String := "Provide --email <email> or --file <path> to select subscribers."

/-- Modelled from the spec: message for a file the resolver could not read
(§4.1 distinguishes the kinds; the exact wording is not in the tree). -/
def fsErrorMsg : FsCode → String
  | FsCode.enoent => "Target file not found."
  | FsCode.eacces => "Cannot read target file (permission denied)."
  | FsCode.other => "Unable to read target file."

/-- The part of the unsubscribe action after target resolution
(`src/commands/subscribers/unsubscribe.ts:34-53`): rejected rows are all
printed and the command stops with the row-error outcome; otherwise the
safety options are parsed (a parse failure is caught and reported) and the
protection executor drives the execution callback. -/
def handleTargets (opts : UnsubscribeOpts) (ts : TargetSet) (env : ProtectEnv)
    (jsonMode : Bool) (sampleFn : Nat → List String → List String)
    (api : String → Except String Unit) : List Event × UnsubOutcome :=
  if 0 < ts.errors.length then
    (ts.errors.map Event.csvErrorPrinted, UnsubOutcome.csvErrors ts.errors)
  else
    match parseOptions opts with
    | Except.error m => ([Event.errorEmitted m], UnsubOutcome.configError m)
    | Except.ok options =>
      let r := protect
        (OperationSpec.mk "Unsubscribe Subscribers" ts.emails (fun e => PreviewRecord.mk e) true)
        options env sampleFn (executeCallback api jsonMode)
      (r.1, UnsubOutcome.protectDone r.2)

/-- The unsubscribe command action (`src/commands/subscribers/unsubscribe.ts:26-57`):
resolve targets first (reading the file when one is given), turn a missing
selection into the usage outcome, then hand over to `handleTargets`. -/
def unsubscribeAction (opts : UnsubscribeOpts) (fs : String → Except FsCode String)
    (api : String → Except String Unit) (env : ProtectEnv) (jsonMode : Bool)
    (sampleFn : Nat → List String → List String) : List Event × UnsubOutcome :=
  let r := resolveEmailTargets opts.email opts.file fs
  match r.2 with
  | Except.error c => (r.1 ++ [Event.errorEmitted (fsErrorMsg c)], UnsubOutcome.resolveFailure c)
  | Except.ok none => (r.1 ++ [Event.errorEmitted selectTargetsMsg], UnsubOutcome.usageError)
  | Except.ok (some ts) =>
    let h := handleTargets opts ts env jsonMode sampleFn api
    (r.1 ++ h.1, h.2)

/-- Modelled from the spec: the exit-code mapping of the reporter layer
(§6, §7): 0 for success, preview, empty set and interactive abort; 1 for
generic errors, configuration errors, non-interactive rejection and
partial execution failure; 2 for a missing target selection; 6 for
malformed input rows. -/
def exitCodeOf : UnsubOutcome → Nat
  | UnsubOutcome.usageError => 2
  | UnsubOutcome.csvErrors _ => 6
  | UnsubOutcome.resolveFailure _ => 1
  | UnsubOutcome.configError _ => 1
  | UnsubOutcome.protectDone ProtectOutcome.rejected => 1
  | UnsubOutcome.protectDone (ProtectOutcome.executed (some _)) => 1
  | UnsubOutcome.protectDone _ => 0

/-- Modelled from the spec: the error value raised by the sequences
commands (`CLIError` from `src/core/sdk.ts`, not in the tree): a message, a
machine-readable code and an HTTP-style status, as constructed throughout
`src/commands/sequences.ts`. -/
structure CLIError where
  message : String
  code : String
  status : Nat
  deriving DecidableEq, Repr

/-- The exactly-one-of error from `resolveHtmlInput`
(`src/commands/sequences.ts:200-206`). -/
def exactlyOneErr : CLIError :=
  CLIError.mk "Provide exactly one of --html or --html-file." "VALIDATION_ERROR" 422

/-- Error for a missing HTML file (`src/commands/sequences.ts:222`). -/
def notFoundErr (p : String) : CLIError :=
  CLIError.mk ("HTML file not found: " ++ p) "VALIDATION_ERROR" 422

/-- Error for an unreadable HTML file (`src/commands/sequences.ts:225`). -/
def permErr (p : String) : CLIError :=
  CLIError.mk ("Cannot read HTML file (permission denied): " ++ p) "VALIDATION_ERROR" 422

/-- Generic error for any other failure inside the read block
(`src/commands/sequences.ts:228`). -/
def unableErr (p : String) : CLIError :=
  CLIError.mk ("Unable to read HTML file: " ++ p) "VALIDATION_ERROR" 422

/-- Constant `MAX_TEMPLATE_HTML_BYTES` from `src/commands/sequences.ts:42`. -/
def MAX_TEMPLATE_HTML_BYTES : Nat := 524288

/-- Constant `MAX_DELAY_COUNT` from `src/commands/sequences.ts:43`. -/
def MAX_DELAY_COUNT : Nat := 999

/-- Constant `ALLOWED_DELAY_INTERVALS` from `src/commands/sequences.ts:41`. -/
def ALLOWED_DELAY_INTERVALS : List String := ["minutes", "hours", "days", "months"]

/-- The oversized-HTML error from `validateHtmlSize`
(`src/commands/sequences.ts:273-279`). -/
def htmlSizeErr : CLIError :=
  CLIError.mk ("HTML content must be under " ++ toString MAX_TEMPLATE_HTML_BYTES ++ " bytes.")
    "VALIDATION_ERROR" 422

/-- Embedding of `validateHtmlSize` from `src/commands/sequences.ts:272-280`: rejects
HTML whose UTF-8 byte length exceeds the maximum. -/
def validateHtmlSize (html : String) : Except CLIError Unit :=
  if MAX_TEMPLATE_HTML_BYTES < html.utf8ByteSize then Except.error htmlSizeErr
  else Except.ok ()

/-- One character of the id part of `^sequence_[a-zA-Z0-9_-]+$`. -/
def isIdChar (c : Char) : Bool := c.isAlphanum || c == '_' || c == '-'

/-- Embedding of `validateSequenceId` from `src/commands/sequences.ts:282-290`: the id
must match `^sequence_[a-zA-Z0-9_-]+$`. -/
def validateSequenceId (sequenceId : String) : Except CLIError Unit :=
  let rest := sequenceId.data.drop 9
  if startsWithStr "sequence_" sequenceId && !rest.isEmpty && rest.all isIdChar then Except.ok ()
  else Except.error (CLIError.mk
    "Sequence ID must be a valid prefix_id (e.g. sequence_abc123)." "VALIDATION_ERROR" 422)

/-- The canonical-positive-integer acceptance of `validateDelayOptions`
(`src/commands/sequences.ts:257-261`): `Number.parseInt` combined with the
`String(parsed) !== delayCount` round-trip check accepts exactly the
canonical decimal spellings of positive integers. -/
def parseCanonicalPositive (s : String) : Option Nat :=
  match parseNatStr s with
  | some n => if 0 < n && toString n == s then some n else none
  | none => none

/-- Embedding of `validateDelayOptions` from `src/commands/sequences.ts:240-270`: both
delay flags together or neither; a known interval; a canonical positive
count within bound. -/
def validateDelayOptions (delayInterval delayCount : Option String) : Except CLIError Unit :=
  if truthy delayInterval != truthy delayCount then
    Except.error (CLIError.mk
      "--delay-interval and --delay-count must be provided together." "VALIDATION_ERROR" 422)
  else if truthy delayInterval && !(ALLOWED_DELAY_INTERVALS.contains (delayInterval.getD "")) then
    Except.error (CLIError.mk
      ("--delay-interval must be one of: " ++ String.intercalate ", " ALLOWED_DELAY_INTERVALS)
      "VALIDATION_ERROR" 422)
  else if truthy delayCount then
    match parseCanonicalPositive (delayCount.getD "") with
    | none => Except.error (CLIError.mk
        "--delay-count must be a positive integer." "VALIDATION_ERROR" 422)
    | some n =>
      if MAX_DELAY_COUNT < n then
        Except.error (CLIError.mk
          ("--delay-count must be less than or equal to " ++ toString MAX_DELAY_COUNT ++ ".")
          "VALIDATION_ERROR" 422)
      else Except.ok ()
  else Except.ok ()

/-- Whether a path string is absolute (model of node `path.isAbsolute` on
POSIX paths). -/
def isAbsolutePath (p : String) : Bool := startsWithStr "/" p

/-- Normalisation of path segments: empty and `.` segments vanish and `..`
pops the previous segment (at the root it stays at the root), as
`path.resolve` does. -/
def normalizeSegs (segs : List String) : List String :=
  segs.foldl (fun acc seg =>
    if seg = "" || seg = "." then acc
    else if seg = ".." then acc.dropLast
    else acc ++ [seg]) []

/-- Model of node `path.resolve(p)` against a current working directory
given as normalised absolute segments. -/
def resolvePath (cwd : List String) (p : String) : List String :=
  if isAbsolutePath p then normalizeSegs ((splitChars '/' p.data).map String.mk)
  else normalizeSegs (cwd ++ (splitChars '/' p.data).map String.mk)

/-- Dropping the longest common segment run of two paths. -/
def dropCommon : List String → List String → List String × List String
  | a :: as, b :: bs => if a = b then dropCommon as bs else (a :: as, b :: bs)
  | as, bs => (as, bs)

/-- Model of node `path.relative(f, t)` on resolved segment paths: climb
out of the uncommon part of `f`, then descend into the uncommon part
of `t`. -/
def relativePathStr (f t : List String) : String :=
  let p := dropCommon f t
  String.intercalate "/" (p.1.map (fun _ => "..") ++ p.2)

/-- The escape test of `resolveSafeHtmlPath`
(`src/commands/sequences.ts:295-297`): the path relative to the project
root starts with `..` or is absolute. -/
def isOutsideProject (cwd : List String) (inputPath : String) : Bool :=
  let rel := relativePathStr cwd (resolvePath cwd inputPath)
  startsWithStr ".." rel || isAbsolutePath rel

/-- Rendering resolved segments back to an absolute path string. -/
def joinAbs (segs : List String) : String := "/" ++ String.intercalate "/" segs

/-- The escape error from `resolveSafeHtmlPath`
(`src/commands/sequences.ts:299-304`). -/
def pathOutsideErr : CLIError :=
  CLIError.mk "HTML file path must be within the current working directory."
    "VALIDATION_ERROR" 422

/-- Embedding of `resolveSafeHtmlPath` from `src/commands/sequences.ts:292-308`: reject
any `--html-file` path that escapes the current working directory, before
any file access. -/
def resolveSafeHtmlPath (cwd : List String) (inputPath : String) : Except CLIError (List String) :=
  if isOutsideProject cwd inputPath then Except.error pathOutsideErr
  else Except.ok (resolvePath cwd inputPath)

/-- Embedding of `resolveHtmlInput` from `src/commands/sequences.ts:196-230`.  The
try/catch around the read block re-wraps every failure that does not carry
an `ENOENT`/`EACCES` file-system code — including the `CLIError`s thrown
by `resolveSafeHtmlPath` and the size check — into the generic
unable-to-read error, which is why those branches all surface `unableErr`. -/
def resolveHtmlInput (html htmlFile : Option String) (cwd : List String)
    (fs : String → Except FsCode String) : List Event × Except CLIError String :=
  let hasInlineHtml := truthy html
  let hasHtmlFile := truthy htmlFile
  if hasInlineHtml == hasHtmlFile then ([], Except.error exactlyOneErr)
  else if truthy html then
    let h := html.getD ""
    match validateHtmlSize h with
    | Except.error e => ([], Except.error e)
    | Except.ok _ => ([], Except.ok h)
  else
    let hf := htmlFile.getD ""
    match resolveSafeHtmlPath cwd hf with
    | Except.error _ => ([], Except.error (unableErr hf))
    | Except.ok p =>
      let pathStr := joinAbs p
      match fs pathStr with
      | Except.error FsCode.enoent => ([Event.fileRead pathStr], Except.error (notFoundErr hf))
      | Except.error FsCode.eacces => ([Event.fileRead pathStr], Except.error (permErr hf))
      | Except.error FsCode.other => ([Event.fileRead pathStr], Except.error (unableErr hf))
      | Except.ok content =>
        match validateHtmlSize content with
        | Except.error _ => ([Event.fileRead pathStr], Except.error (unableErr hf))
        | Except.ok _ => ([Event.fileRead pathStr], Except.ok content)

/-- Embedding of `resolveOptionalHtmlInput` from `src/commands/sequences.ts:232-238`:
neither flag truthy resolves to no HTML without error, anything else
defers to `resolveHtmlInput`. -/
def resolveOptionalHtmlInput (html htmlFile : Option String) (cwd : List String)
    (fs : String → Except FsCode String) : List Event × Except CLIError (Option String) :=
  if !truthy html && !truthy htmlFile then ([], Except.ok none)
  else
    let r := resolveHtmlInput html htmlFile cwd fs
    (r.1, r.2.map some)

/-- Options of `sequences create-email`
(`CreateEmailOptions` in `src/commands/sequences.ts:20-32`, restricted to
the fields the embedded validation reads). -/
structure CreateEmailOpts where
  sequenceId : String
  subject : String
  html : Option String
  htmlFile : Option String
  delayInterval : Option String
  delayCount : Option String
  deriving DecidableEq, Repr

/-- Options of `sequences update-email`
(`UpdateEmailOptions` in `src/commands/sequences.ts:34-39`). -/
structure UpdateEmailOpts where
  templateId : String
  subject : Option String
  html : Option String
  htmlFile : Option String
  deriving DecidableEq, Repr

/-- The `create-email` action (`src/commands/sequences.ts:107-149`):
validate the sequence id, resolve the HTML input, validate the delay
flags, then issue the remote call. -/
def createEmailAction (opts : CreateEmailOpts) (cwd : List String)
    (fs : String → Except FsCode String) : List Event × Except CLIError Unit :=
  match validateSequenceId opts.sequenceId with
  | Except.error e => ([], Except.error e)
  | Except.ok _ =>
    let r := resolveHtmlInput opts.html opts.htmlFile cwd fs
    match r.2 with
    | Except.error e => (r.1, Except.error e)
    | Except.ok html =>
      match validateDelayOptions opts.delayInterval opts.delayCount with
      | Except.error e => (r.1, Except.error e)
      | Except.ok _ => (r.1 ++ [Event.apiCreateEmail opts.sequenceId html], Except.ok ())

/-- The `update-email` action (`src/commands/sequences.ts:158-193`):
resolve the optional HTML input, require at least one truthy update field
(`if (!options.subject && !html)` uses JavaScript truthiness, so an empty
resolved string counts as missing), then issue the remote call. -/
def updateEmailAction (opts : UpdateEmailOpts) (cwd : List String)
    (fs : String → Except FsCode String) : List Event × Except CLIError Unit :=
  let r := resolveOptionalHtmlInput opts.html opts.htmlFile cwd fs
  match r.2 with
  | Except.error e => (r.1, Except.error e)
  | Except.ok html =>
    if !truthy opts.subject && !truthy html then
      (r.1, Except.error (CLIError.mk
        "At least one of --subject, --html, or --html-file must be provided."
        "VALIDATION_ERROR" 422))
    else (r.1 ++ [Event.apiUpdateEmail opts.templateId], Except.ok ())

/-- A remote API stub that succeeds on every call. -/
def apiOk : String → Except String Unit := fun _ => Except.ok ()

/-- A remote API stub that fails exactly on the third of the five fixture
addresses. -/
def apiFailC : String → Except String Unit := fun e =>
  if e = "c@x.com" then Except.error "remote failure" else Except.ok ()

/-- Five fixture addresses. -/
def fiveEmails : List String :=
  ["a@x.com", "b@x.com", "c@x.com", "d@x.com", "e@x.com"]

/-- A non-interactive environment whose prompt would be declined. -/
def envNI : ProtectEnv := ProtectEnv.mk false false

/-- A file-system stub with no readable files. -/
def fsNone : String → Except FsCode String := fun _ => Except.error FsCode.enoent

/-- A deterministic sampler used to instantiate witnesses. -/
def takeSample : Nat → List String → List String := fun k l => l.take k

/-- A fixture working directory, `/home/user/proj`. -/
def cwd0 : List String := ["home", "user", "proj"]

/-- Options fixture supplying a target file together with both `--limit`
and `--sample`. -/
def optsBoth : UnsubscribeOpts :=
  UnsubscribeOpts.mk none (some "list.csv") false (some "2") (some "3") false

/-- A file-system stub holding one two-address target file. -/
def fsList : String → Except FsCode String := fun p =>
  if p = "list.csv" then Except.ok "a@x.com\nb@x.com" else Except.error FsCode.enoent

/-- A create-email options fixture whose HTML file path escapes the
working directory. -/
def outsideOpts : CreateEmailOpts :=
  CreateEmailOpts.mk "sequence_1" "Hello" none (some "../evil.html") none none

/-- If every call before `e` succeeds and the call on `e` fails, the
per-email loop attempts exactly the prefix up to and including `e` and
propagates the failure. -/
theorem runLoop_stops (api : String → Except String Unit) (pre : List String)
    (e : String) (post : List String) (m : String)
    (hpre : ∀ x ∈ pre, api x = Except.ok ()) (he : api e = Except.error m) :
    runUnsubscribeLoop api (pre ++ e :: post) =
      ((pre ++ [e]).map Event.apiUnsubscribe, some m) := by
  induction pre with
  | nil => simp [runUnsubscribeLoop, he]
  | cons x xs ih =>
    have hx : api x = Except.ok () := hpre x (by simp)
    have ih2 := ih (fun y hy => hpre y (by simp [hy]))
    simp [runUnsubscribeLoop, hx, ih2]

/-- If every call succeeds, the per-email loop attempts every email in
order and reports no failure. -/
theorem runLoop_ok (api : String → Except String Unit) (emails : List String)
    (hall : ∀ x ∈ emails, api x = Except.ok ()) :
    runUnsubscribeLoop api emails = (emails.map Event.apiUnsubscribe, none) := by
  induction emails with
  | nil => simp [runUnsubscribeLoop]
  | cons x xs ih =>
    have hx : api x = Except.ok () := hall x (by simp)
    have ih2 := ih (fun y hy => hall y (by simp [hy]))
    simp [runUnsubscribeLoop, hx, ih2]

/-- Claim C1, counterexample: with the remote call failing on the third of
five targets, the unsubscribe execution callback never attempts targets
four and five and propagates the failure with no per-target success
accounting, contradicting the claimed no-fail-fast behaviour. -/
theorem c1_counterexample :
    (executeCallback apiFailC false fiveEmails).2 = some "remote failure" ∧
    Event.apiUnsubscribe "d@x.com" ∉ (executeCallback apiFailC false fiveEmails).1 ∧
    Event.apiUnsubscribe "e@x.com" ∉ (executeCallback apiFailC false fiveEmails).1 := by
  decide

/-- Claim C1, amended: in the unsubscribe execution callback a failure on
target `e` prevents every later target from being attempted — the trace is
exactly the attempts up to and including `e`, the error propagates, and no
success summary is emitted. -/
theorem c1_amended_fail_fast (api : String → Except String Unit) (pre : List String)
    (e : String) (post : List String) (m : String) (jsonMode : Bool)
    (hpre : ∀ x ∈ pre, api x = Except.ok ()) (he : api e = Except.error m) :
    executeCallback api jsonMode (pre ++ e :: post) =
      ((pre ++ [e]).map Event.apiUnsubscribe, some m) := by
  simp [executeCallback, runLoop_stops api pre e post m hpre he]

/-- Claim C1, witness for the amended statement at a concrete input. -/
theorem c1_witness :
    executeCallback apiFailC false
        (["a@x.com", "b@x.com"] ++ "c@x.com" :: ["d@x.com", "e@x.com"]) =
      ((["a@x.com", "b@x.com"] ++ ["c@x.com"]).map Event.apiUnsubscribe,
        some "remote failure") :=
  c1_amended_fail_fast apiFailC ["a@x.com", "b@x.com"] "c@x.com"
    ["d@x.com", "e@x.com"] "remote failure" false (by decide) (by decide)

/-- Claim C8: when every remote call succeeds in machine-readable mode,
the unsubscribe callback emits exactly one envelope of shape
`{ success, error, data, meta }` with `success = true`, `error = null`,
`data` carrying the updated count and the action name, and `meta` carrying
the target count. -/
theorem c8_json_envelope (api : String → Except String Unit) (emails : List String)
    (hall : ∀ x ∈ emails, api x = Except.ok ()) :
    executeCallback api true emails =
      (emails.map Event.apiUnsubscribe ++
        [Event.jsonEmitted (Envelope.mk true none
          (UnsubscribeData.mk emails.length "unsubscribe")
          (UnsubscribeMeta.mk emails.length))], none) := by
  simp [executeCallback, runLoop_ok api emails hall, emitResult]

/-- Claim C8, witness at a concrete two-target run. -/
theorem c8_witness :
    executeCallback apiOk true ["a@x.com", "b@x.com"] =
      (["a@x.com", "b@x.com"].map Event.apiUnsubscribe ++
        [Event.jsonEmitted (Envelope.mk true none
          (UnsubscribeData.mk (["a@x.com", "b@x.com"] : List String).length "unsubscribe")
          (UnsubscribeMeta.mk (["a@x.com", "b@x.com"] : List String).length))], none) :=
  c8_json_envelope apiOk ["a@x.com", "b@x.com"] (by decide)

/-- Claim C2, counterexample: invoking unsubscribe with both `--limit` and
`--sample` and a target file reads the file — the action resolves targets
before the safety options are parsed, so the configuration error is not
raised before target-resolution side effects. -/
theorem c2_counterexample :
    unsubscribeAction optsBoth fsList apiOk envNI false takeSample =
      ([Event.fileRead "list.csv", Event.errorEmitted bothFlagsMsg],
        UnsubOutcome.configError bothFlagsMsg) := by
  decide

/-- Claim C2, amended: with both `--limit` and `--sample` supplied, once
the resolved target set is in hand (after any file read) the command stops
with the configuration error; the protection executor is never entered and
the execution callback is never invoked. -/
theorem c2_amended_config_error (opts : UnsubscribeOpts) (ts : TargetSet)
    (env : ProtectEnv) (jsonMode : Bool) (sampleFn : Nat → List String → List String)
    (api : String → Except String Unit)
    (hrows : ts.errors = []) (hl : opts.limit.isSome = true) (hs : opts.sample.isSome = true) :
    handleTargets opts ts env jsonMode sampleFn api =
      ([Event.errorEmitted bothFlagsMsg], UnsubOutcome.configError bothFlagsMsg) := by
  simp [handleTargets, parseOptions, hrows, hl, hs]

/-- Claim C2, witness for the amended statement at a concrete input. -/
theorem c2_witness :
    handleTargets optsBoth (TargetSet.mk ["a@x.com", "b@x.com"] []) envNI false takeSample apiOk =
      ([Event.errorEmitted bothFlagsMsg], UnsubOutcome.configError bothFlagsMsg) :=
  c2_amended_config_error optsBoth (TargetSet.mk ["a@x.com", "b@x.com"] [])
    envNI false takeSample apiOk rfl rfl rfl

/-- Claim C5: whenever the resolved target set contains rejected rows, the
unsubscribe command prints every rejected row, stops with the row-error
outcome mapped to exit code 6, and never reaches the protection executor
or the execution callback. -/
theorem c5_rejected_rows_fail_closed (opts : UnsubscribeOpts) (ts : TargetSet)
    (env : ProtectEnv) (jsonMode : Bool) (sampleFn : Nat → List String → List String)
    (api : String → Except String Unit) (h : ts.errors ≠ []) :
    handleTargets opts ts env jsonMode sampleFn api =
      (ts.errors.map Event.csvErrorPrinted, UnsubOutcome.csvErrors ts.errors) ∧
    exitCodeOf (UnsubOutcome.csvErrors ts.errors) = 6 := by
  have hlen : 0 < ts.errors.length := List.length_pos.mpr h
  exact ⟨by simp [handleTargets, hlen], rfl⟩

/-- Claim C5, witness at a concrete target set with one rejected row. -/
theorem c5_witness :
    handleTargets optsBoth (TargetSet.mk [] [RejectedRow.mk 2 "not-an-email"]) envNI false
        takeSample apiOk =
      ([RejectedRow.mk 2 "not-an-email"].map Event.csvErrorPrinted,
        UnsubOutcome.csvErrors [RejectedRow.mk 2 "not-an-email"]) ∧
    exitCodeOf (UnsubOutcome.csvErrors [RejectedRow.mk 2 "not-an-email"]) = 6 :=
  c5_rejected_rows_fail_closed optsBoth (TargetSet.mk [] [RejectedRow.mk 2 "not-an-email"])
    envNI false takeSample apiOk (by decide)

/-- Claim C6: when neither `--email` nor `--file` is meaningfully provided
(absent or empty), target resolution signals "no targets selected" as
`none` rather than an empty accepted set, and the command emits the usage
message with the usage outcome mapped to exit code 2. -/
theorem c6_no_target_selection (opts : UnsubscribeOpts)
    (fs : String → Except FsCode String) (api : String → Except String Unit)
    (env : ProtectEnv) (jsonMode : Bool) (sampleFn : Nat → List String → List String)
    (he : truthy opts.email = false) (hf : truthy opts.file = false) :
    (resolveEmailTargets opts.email opts.file fs).2 = Except.ok none ∧
    unsubscribeAction opts fs api env jsonMode sampleFn =
      ([Event.errorEmitted selectTargetsMsg], UnsubOutcome.usageError) ∧
    exitCodeOf UnsubOutcome.usageError = 2 := by
  refine ⟨by simp [resolveEmailTargets, he, hf], ?_, rfl⟩
  simp [unsubscribeAction, resolveEmailTargets, he, hf]

/-- Claim C6, witness at `--email "" --file ""`. -/
theorem c6_witness :
    (resolveEmailTargets (UnsubscribeOpts.mk (some "") (some "") false none none false).email
        (UnsubscribeOpts.mk (some "") (some "") false none none false).file fsNone).2 =
      Except.ok none ∧
    unsubscribeAction (UnsubscribeOpts.mk (some "") (some "") false none none false) fsNone
        apiOk envNI false takeSample =
      ([Event.errorEmitted selectTargetsMsg], UnsubOutcome.usageError) ∧
    exitCodeOf UnsubOutcome.usageError = 2 :=
  c6_no_target_selection (UnsubscribeOpts.mk (some "") (some "") false none none false)
    fsNone apiOk envNI false takeSample (by decide) (by decide)

/-- A non-empty list is not `isEmpty`. -/
theorem isEmpty_false_of_ne_nil {α : Type} (l : List α) (h : l ≠ []) : l.isEmpty = false := by
  cases l with
  | nil => exact absurd rfl h
  | cons a t => rfl

/-- The reduced working set of a non-empty item list is non-empty whenever
the options are well-formed and the sampler returns `min k n` items. -/
theorem reduce_ne_nil {α : Type} (options : SafetyOptions) (sampleFn : Nat → List α → List α)
    (items : List α) (hitems : items ≠ []) (hwf : safetyWf options)
    (hsf : ∀ (k : Nat) (l : List α), (sampleFn k l).length = min k l.length) :
    reduceItems options sampleFn items ≠ [] := by
  cases hl : options.limit with
  | some k =>
    have hk : 0 < k := hwf.1 k hl
    have hlen : 0 < items.length := List.length_pos.mpr hitems
    have ht : 0 < (items.take k).length := by
      rw [List.length_take]; exact Nat.lt_min.mpr ⟨hk, hlen⟩
    simpa [reduceItems, hl] using List.length_pos.mp ht
  | none =>
    cases hs : options.sample with
    | some k =>
      have hk : 0 < k := hwf.2 k hs
      have hlen : 0 < items.length := List.length_pos.mpr hitems
      have ht : 0 < (sampleFn k items).length := by
        rw [hsf k items]; exact Nat.lt_min.mpr ⟨hk, hlen⟩
      simpa [reduceItems, hl, hs] using List.length_pos.mp ht
    | none => simpa [reduceItems, hl, hs] using hitems

/-- Claim C3: with `dryRun = true` and a non-empty working set, the
executor terminates in the Previewed state carrying the formatted preview
and the working-set count; the result does not depend on the execution
callback, which is therefore never invoked, regardless of dangerousness,
confirmation, limit or sample. -/
theorem c3_dry_run_previews_only {α β : Type} (spec : OperationSpec α β)
    (options : SafetyOptions) (env : ProtectEnv) (sampleFn : Nat → List α → List α)
    (execute : List α → List Event × Option String)
    (hitems : spec.items ≠ []) (hwf : safetyWf options) (hdry : options.dryRun = true)
    (hsf : ∀ (k : Nat) (l : List α), (sampleFn k l).length = min k l.length) :
    protect spec options env sampleFn execute =
      ([Event.previewShown (reduceItems options sampleFn spec.items).length],
        ProtectOutcome.previewed
          ((reduceItems options sampleFn spec.items).map spec.formatItem)
          (reduceItems options sampleFn spec.items).length) := by
  have hws := reduce_ne_nil options sampleFn spec.items hitems hwf hsf
  have hE := isEmpty_false_of_ne_nil _ hws
  simp [protect, protectGo, hE, hdry]

/-- Claim C3, witness: a dangerous two-target dry run with `--limit 1`
previews one target and never executes. -/
theorem c3_witness :
    protect (OperationSpec.mk "Unsubscribe Subscribers" ["a@x.com", "b@x.com"]
        (fun e => PreviewRecord.mk e) true)
      (SafetyOptions.mk true (some 1) none false) envNI takeSample
      (executeCallback apiOk false) =
      ([Event.previewShown 1], ProtectOutcome.previewed [PreviewRecord.mk "a@x.com"] 1) := by
  have h := c3_dry_run_previews_only (OperationSpec.mk "Unsubscribe Subscribers"
      ["a@x.com", "b@x.com"] (fun e => PreviewRecord.mk e) true)
    (SafetyOptions.mk true (some 1) none false) envNI takeSample
    (executeCallback apiOk false) (by decide)
    ⟨fun k hk => by injection hk with h2; omega, fun k hk => Option.noConfusion hk⟩
    rfl (fun k l => List.length_take k l)
  exact h.trans (by decide)

/-- Claim C4: a dangerous operation without `--confirm` in a
non-interactive environment terminates in the Rejected state with no
events and without invoking the execution callback; the rejected outcome
maps to exit code 1 while an interactive abort maps to exit code 0. -/
theorem c4_noninteractive_rejected {α β : Type} (spec : OperationSpec α β)
    (options : SafetyOptions) (env : ProtectEnv) (sampleFn : Nat → List α → List α)
    (execute : List α → List Event × Option String)
    (hws : reduceItems options sampleFn spec.items ≠ [])
    (hdry : options.dryRun = false) (hdang : spec.isDangerous = true)
    (hconf : options.confirm = false) (hint : env.interactive = false) :
    protect spec options env sampleFn execute = ([], ProtectOutcome.rejected) ∧
    exitCodeOf (UnsubOutcome.protectDone ProtectOutcome.rejected) = 1 ∧
    exitCodeOf (UnsubOutcome.protectDone ProtectOutcome.aborted) = 0 := by
  have hE := isEmpty_false_of_ne_nil _ hws
  exact ⟨by simp [protect, protectGo, hE, hdry, hdang, hconf, hint], rfl, rfl⟩

/-- Claim C4, witness: one dangerous target, no confirmation,
non-interactive environment. -/
theorem c4_witness :
    protect (OperationSpec.mk "Unsubscribe Subscribers" ["a@x.com"]
        (fun e => PreviewRecord.mk e) true)
      (SafetyOptions.mk false none none false) envNI takeSample
      (executeCallback apiOk false) = ([], ProtectOutcome.rejected) ∧
    exitCodeOf (UnsubOutcome.protectDone ProtectOutcome.rejected) = 1 ∧
    exitCodeOf (UnsubOutcome.protectDone ProtectOutcome.aborted) = 0 :=
  c4_noninteractive_rejected (OperationSpec.mk "Unsubscribe Subscribers" ["a@x.com"]
      (fun e => PreviewRecord.mk e) true)
    (SafetyOptions.mk false none none false) envNI takeSample
    (executeCallback apiOk false) (by decide) rfl rfl rfl rfl

/-- Claim C7: with `limit = k ≤ n`, the working set has length `k` and
agrees with the original sequence position by position on the first `k`
indices (a stable prefix), and a non-dangerous non-dry run passes exactly
that working set to the execution callback. -/
theorem c7_limit_first_k {α β : Type} (name : String) (items : List α) (fmt : α → β)
    (options : SafetyOptions) (env : ProtectEnv) (sampleFn : Nat → List α → List α)
    (execute : List α → List Event × Option String) (k : Nat)
    (hl : options.limit = some k) (hk : k ≤ items.length) (hpos : 0 < k)
    (hdry : options.dryRun = false) :
    (reduceItems options sampleFn items).length = k ∧
    (∀ i : Nat, i < k → (reduceItems options sampleFn items)[i]? = items[i]?) ∧
    protect (OperationSpec.mk name items fmt false) options env sampleFn execute =
      ((execute (reduceItems options sampleFn items)).1,
        ProtectOutcome.executed (execute (reduceItems options sampleFn items)).2) := by
  have hred : reduceItems options sampleFn items = items.take k := by
    simp [reduceItems, hl]
  refine ⟨?_, ?_, ?_⟩
  · rw [hred, List.length_take]; exact Nat.min_eq_left hk
  · intro i hi
    rw [hred, List.getElem?_take]
    simp [hi]
  · have hws : reduceItems options sampleFn items ≠ [] := by
      rw [hred]
      intro hnil
      have hz := congrArg List.length hnil
      rw [List.length_take, Nat.min_eq_left hk] at hz
      simp at hz
      omega
    have hE := isEmpty_false_of_ne_nil _ hws
    simp [protect, protectGo, hE, hdry]

/-- Claim C7, witness: `--limit 2` over three targets executes exactly the
first two in order. -/
theorem c7_witness :
    (reduceItems (SafetyOptions.mk false (some 2) none false) takeSample
        ["a@x.com", "b@x.com", "c@x.com"]).length = 2 ∧
    (reduceItems (SafetyOptions.mk false (some 2) none false) takeSample
        ["a@x.com", "b@x.com", "c@x.com"])[0]? =
      (["a@x.com", "b@x.com", "c@x.com"] : List String)[0]? ∧
    (reduceItems (SafetyOptions.mk false (some 2) none false) takeSample
        ["a@x.com", "b@x.com", "c@x.com"])[1]? =
      (["a@x.com", "b@x.com", "c@x.com"] : List String)[1]? ∧
    protect (OperationSpec.mk "Unsubscribe Subscribers"
        ["a@x.com", "b@x.com", "c@x.com"] (fun e => PreviewRecord.mk e) false)
      (SafetyOptions.mk false (some 2) none false) envNI takeSample
      (executeCallback apiOk false) =
      ((executeCallback apiOk false (reduceItems (SafetyOptions.mk false (some 2) none false)
          takeSample ["a@x.com", "b@x.com", "c@x.com"])).1,
        ProtectOutcome.executed (executeCallback apiOk false
          (reduceItems (SafetyOptions.mk false (some 2) none false)
            takeSample ["a@x.com", "b@x.com", "c@x.com"])).2) := by
  have h := c7_limit_first_k "Unsubscribe Subscribers"
    ["a@x.com", "b@x.com", "c@x.com"] (fun e => PreviewRecord.mk e)
    (SafetyOptions.mk false (some 2) none false) envNI takeSample
    (executeCallback apiOk false) 2 rfl (by decide) (by decide) rfl
  exact ⟨h.1, h.2.1 0 (by decide), h.2.1 1 (by decide), h.2.2⟩

/-- Two strings differ whenever the first, prefixed, has a different head
than the target has. -/
theorem append_ne_of_head_ne (pre suf t : String)
    (hne : pre.data.head? ≠ t.data.head?) (hp : pre.data ≠ []) :
    pre ++ suf ≠ t := by
  intro he
  apply hne
  have hd : pre.data ++ suf.data = t.data := by
    rw [← String.data_append]
    exact congrArg String.data he
  rw [← hd]
  cases hpre : pre.data with
  | nil => exact absurd hpre hp
  | cons c cs => simp

/-- CLI errors with different messages are different. -/
theorem cli_ne_of_message_ne (a b : CLIError) (h : a.message ≠ b.message) : a ≠ b :=
  fun he => h (congrArg CLIError.message he)

/-- The missing-file error is never the exactly-one-of error. -/
theorem notFound_ne_exactlyOne (p : String) : notFoundErr p ≠ exactlyOneErr :=
  cli_ne_of_message_ne _ _
    (append_ne_of_head_ne "HTML file not found: " p exactlyOneErr.message (by decide) (by decide))

/-- The permission error is never the exactly-one-of error. -/
theorem perm_ne_exactlyOne (p : String) : permErr p ≠ exactlyOneErr :=
  cli_ne_of_message_ne _ _
    (append_ne_of_head_ne "Cannot read HTML file (permission denied): " p
      exactlyOneErr.message (by decide) (by decide))

/-- The generic unable-to-read error is never the exactly-one-of error. -/
theorem unable_ne_exactlyOne (p : String) : unableErr p ≠ exactlyOneErr :=
  cli_ne_of_message_ne _ _
    (append_ne_of_head_ne "Unable to read HTML file: " p exactlyOneErr.message
      (by decide) (by decide))

/-- The only error `validateHtmlSize` can raise is the size error. -/
theorem validateHtmlSize_error (s : String) (e : CLIError)
    (h : validateHtmlSize s = Except.error e) : e = htmlSizeErr := by
  unfold validateHtmlSize at h
  split at h
  · exact (Except.error.inj h).symm
  · exact Except.noConfusion h

/-- With equal provisions (both or neither of `--html`/`--html-file`
truthy) `resolveHtmlInput` raises the exactly-one-of error without
touching the file system. -/
theorem resolveHtml_equal (html htmlFile : Option String) (cwd : List String)
    (fs : String → Except FsCode String) (h : truthy html = truthy htmlFile) :
    resolveHtmlInput html htmlFile cwd fs = ([], Except.error exactlyOneErr) := by
  have hb : (truthy html == truthy htmlFile) = true := by rw [h]; simp
  simp [resolveHtmlInput, hb]

/-- With unequal provisions `resolveHtmlInput` never raises the
exactly-one-of error (its other failures carry different messages). -/
theorem resolveHtml_ne_exactlyOne (html htmlFile : Option String) (cwd : List String)
    (fs : String → Except FsCode String) (hne : truthy html ≠ truthy htmlFile) :
    (resolveHtmlInput html htmlFile cwd fs).2 ≠ Except.error exactlyOneErr := by
  cases h1 : truthy html with
  | true =>
    have h2 : truthy htmlFile = false := by
      cases hh : truthy htmlFile
      · rfl
      · exact absurd (h1.trans hh.symm) hne
    cases hv : validateHtmlSize (html.getD "") with
    | error e =>
      have he : e = htmlSizeErr := validateHtmlSize_error _ e hv
      have hred : (resolveHtmlInput html htmlFile cwd fs).2 = Except.error e := by
        simp [resolveHtmlInput, h1, h2, hv]
      rw [hred, he]
      intro hc
      exact absurd (congrArg CLIError.message (Except.error.inj hc)) (by decide)
    | ok u =>
      have hred : (resolveHtmlInput html htmlFile cwd fs).2 = Except.ok (html.getD "") := by
        simp [resolveHtmlInput, h1, h2, hv]
      rw [hred]
      intro hc
      exact Except.noConfusion hc
  | false =>
    have h2 : truthy htmlFile = true := by
      cases hh : truthy htmlFile
      · exact absurd (h1.trans hh.symm) hne
      · rfl
    cases hs : resolveSafeHtmlPath cwd (htmlFile.getD "") with
    | error e =>
      have hred : (resolveHtmlInput html htmlFile cwd fs).2 =
          Except.error (unableErr (htmlFile.getD "")) := by
        simp [resolveHtmlInput, h1, h2, hs]
      rw [hred]
      intro hc
      exact absurd (Except.error.inj hc) (unable_ne_exactlyOne _)
    | ok p =>
      cases hf2 : fs (joinAbs p) with
      | error c =>
        cases c with
        | enoent =>
          have hred : (resolveHtmlInput html htmlFile cwd fs).2 =
              Except.error (notFoundErr (htmlFile.getD "")) := by
            simp [resolveHtmlInput, h1, h2, hs, hf2]
          rw [hred]
          intro hc
          exact absurd (Except.error.inj hc) (notFound_ne_exactlyOne _)
        | eacces =>
          have hred : (resolveHtmlInput html htmlFile cwd fs).2 =
              Except.error (permErr (htmlFile.getD "")) := by
            simp [resolveHtmlInput, h1, h2, hs, hf2]
          rw [hred]
          intro hc
          exact absurd (Except.error.inj hc) (perm_ne_exactlyOne _)
        | other =>
          have hred : (resolveHtmlInput html htmlFile cwd fs).2 =
              Except.error (unableErr (htmlFile.getD "")) := by
            simp [resolveHtmlInput, h1, h2, hs, hf2]
          rw [hred]
          intro hc
          exact absurd (Except.error.inj hc) (unable_ne_exactlyOne _)
      | ok content =>
        cases hv : validateHtmlSize content with
        | error e =>
          have hred : (resolveHtmlInput html htmlFile cwd fs).2 =
              Except.error (unableErr (htmlFile.getD "")) := by
            simp [resolveHtmlInput, h1, h2, hs, hf2, hv]
          rw [hred]
          intro hc
          exact absurd (Except.error.inj hc) (unable_ne_exactlyOne _)
        | ok u =>
          have hred : (resolveHtmlInput html htmlFile cwd fs).2 = Except.ok content := by
            simp [resolveHtmlInput, h1, h2, hs, hf2, hv]
          rw [hred]
          intro hc
          exact Except.noConfusion hc

/-- With both provisions truthy `resolveOptionalHtmlInput` raises the
exactly-one-of error with no file read. -/
theorem resolveOptionalHtml_both (html htmlFile : Option String) (cwd : List String)
    (fs : String → Except FsCode String)
    (h1 : truthy html = true) (h2 : truthy htmlFile = true) :
    resolveOptionalHtmlInput html htmlFile cwd fs = ([], Except.error exactlyOneErr) := by
  have hr := resolveHtml_equal html htmlFile cwd fs (h1.trans h2.symm)
  simp [resolveOptionalHtmlInput, h1, h2, hr, Except.map]

/-- With neither provision truthy `resolveOptionalHtmlInput` succeeds with
no HTML and no error. -/
theorem resolveOptionalHtml_neither (html htmlFile : Option String) (cwd : List String)
    (fs : String → Except FsCode String)
    (h1 : truthy html = false) (h2 : truthy htmlFile = false) :
    resolveOptionalHtmlInput html htmlFile cwd fs = ([], Except.ok none) := by
  simp [resolveOptionalHtmlInput, h1, h2]

/-- With equal provisions the create-email action fails before any file
read or remote call. -/
theorem createEmail_equal_provision (opts : CreateEmailOpts) (cwd : List String)
    (fs : String → Except FsCode String)
    (h : truthy opts.html = truthy opts.htmlFile) :
    (createEmailAction opts cwd fs).1 = [] ∧
    (createEmailAction opts cwd fs).2 ≠ Except.ok () := by
  cases hv : validateSequenceId opts.sequenceId with
  | error e =>
    constructor
    · simp [createEmailAction, hv]
    · simp [createEmailAction, hv]
  | ok u =>
    have hr := resolveHtml_equal opts.html opts.htmlFile cwd fs h
    constructor
    · simp [createEmailAction, hv, hr]
    · simp [createEmailAction, hv, hr]

/-- With both provisions truthy the update-email action fails before any
file read or remote call. -/
theorem updateEmail_both_provision (opts : UpdateEmailOpts) (cwd : List String)
    (fs : String → Except FsCode String)
    (h1 : truthy opts.html = true) (h2 : truthy opts.htmlFile = true) :
    (updateEmailAction opts cwd fs).1 = [] ∧
    (updateEmailAction opts cwd fs).2 ≠ Except.ok () := by
  have hr := resolveOptionalHtml_both opts.html opts.htmlFile cwd fs h1 h2
  constructor
  · simp [updateEmailAction, hr]
  · simp [updateEmailAction, hr]

/-- Claim C9, counterexample: for update-email with neither `--html` nor
`--html-file` provided the two provisions are equal, yet HTML input
resolution raises no validation error — it succeeds with no HTML. -/
theorem c9_counterexample :
    resolveOptionalHtmlInput none none cwd0 fsNone = ([], Except.ok none) := by
  decide

/-- Claim C9, amended: for create-email, resolution raises the
exactly-one-of validation error precisely when the two provisions are
equal (an empty string counting as not provided) and then reads no file;
for update-email the error is raised precisely when both are provided,
while neither provided resolves to no HTML without error; in every
error case the surrounding action issues no remote call and reads no
file. -/
theorem c9_amended_html_provision :
    (∀ (html htmlFile : Option String) (cwd : List String)
        (fs : String → Except FsCode String),
      truthy html = truthy htmlFile →
        resolveHtmlInput html htmlFile cwd fs = ([], Except.error exactlyOneErr)) ∧
    (∀ (html htmlFile : Option String) (cwd : List String)
        (fs : String → Except FsCode String),
      truthy html ≠ truthy htmlFile →
        (resolveHtmlInput html htmlFile cwd fs).2 ≠ Except.error exactlyOneErr) ∧
    (∀ (html htmlFile : Option String) (cwd : List String)
        (fs : String → Except FsCode String),
      truthy html = true → truthy htmlFile = true →
        resolveOptionalHtmlInput html htmlFile cwd fs = ([], Except.error exactlyOneErr)) ∧
    (∀ (html htmlFile : Option String) (cwd : List String)
        (fs : String → Except FsCode String),
      truthy html = false → truthy htmlFile = false →
        resolveOptionalHtmlInput html htmlFile cwd fs = ([], Except.ok none)) ∧
    (∀ (opts : CreateEmailOpts) (cwd : List String) (fs : String → Except FsCode String),
      truthy opts.html = truthy opts.htmlFile →
        (createEmailAction opts cwd fs).1 = [] ∧
        (createEmailAction opts cwd fs).2 ≠ Except.ok ()) ∧
    (∀ (opts : UpdateEmailOpts) (cwd : List String) (fs : String → Except FsCode String),
      truthy opts.html = true → truthy opts.htmlFile = true →
        (updateEmailAction opts cwd fs).1 = [] ∧
        (updateEmailAction opts cwd fs).2 ≠ Except.ok ()) :=
  ⟨resolveHtml_equal, resolveHtml_ne_exactlyOne, resolveOptionalHtml_both,
    resolveOptionalHtml_neither, createEmail_equal_provision, updateEmail_both_provision⟩

/-- Claim C9, witness: both flags provided raises the exactly-one-of
error with no file read, and neither provided (update-email) succeeds. -/
theorem c9_witness :
    resolveHtmlInput (some "<p>hello</p>") (some "email.html") cwd0 fsNone =
      ([], Except.error exactlyOneErr) ∧
    resolveOptionalHtmlInput none none cwd0 fsNone = ([], Except.ok none) :=
  ⟨c9_amended_html_provision.1 (some "<p>hello</p>") (some "email.html") cwd0 fsNone
      (by decide),
    c9_amended_html_provision.2.2.2.1 none none cwd0 fsNone rfl rfl⟩

/-- Claim C10: whenever the `--html-file` argument resolves outside the
current working directory (relative path starting with `..` or absolute),
the create-email action fails with a validation error, reads no file and
issues no remote call — its event trace is empty. -/
theorem c10_outside_path_rejected (opts : CreateEmailOpts) (cwd : List String)
    (fs : String → Except FsCode String)
    (hfile : truthy opts.htmlFile = true)
    (hout : isOutsideProject cwd (opts.htmlFile.getD "") = true) :
    (createEmailAction opts cwd fs).1 = [] ∧
    (createEmailAction opts cwd fs).2 ≠ Except.ok () := by
  cases hv : validateSequenceId opts.sequenceId with
  | error e =>
    constructor
    · simp [createEmailAction, hv]
    · simp [createEmailAction, hv]
  | ok u =>
    cases h1 : truthy opts.html with
    | true =>
      have hr := resolveHtml_equal opts.html opts.htmlFile cwd fs (h1.trans hfile.symm)
      constructor
      · simp [createEmailAction, hv, hr]
      · simp [createEmailAction, hv, hr]
    | false =>
      have hsafe : resolveSafeHtmlPath cwd (opts.htmlFile.getD "") =
          Except.error pathOutsideErr := by
        simp [resolveSafeHtmlPath, hout]
      have hr : resolveHtmlInput opts.html opts.htmlFile cwd fs =
          ([], Except.error (unableErr (opts.htmlFile.getD ""))) := by
        simp [resolveHtmlInput, h1, hfile, hsafe]
      constructor
      · simp [createEmailAction, hv, hr]
      · simp [createEmailAction, hv, hr]

/-- Claim C10, witness: `--html-file ../evil.html` under `/home/user/proj`
is rejected with an empty event trace. -/
theorem c10_witness :
    (createEmailAction outsideOpts cwd0 fsNone).1 = [] ∧
    (createEmailAction outsideOpts cwd0 fsNone).2 ≠ Except.ok () :=
  c10_outside_path_rejected outsideOpts cwd0 fsNone (by decide) (by decide)

/-- A numeric flag accepted by the option parser is positive. -/
theorem parseOptNat_pos (x : Option String) (k : Nat)
    (h : parseOptNat x = Except.ok (some k)) : 0 < k := by
  cases x with
  | none => exact Option.noConfusion (Except.ok.inj h)
  | some s =>
    have h2 : (match parseNatStr s with
        | some n => if 0 < n then Except.ok (some n) else Except.error invalidNumberMsg
        | none => (Except.error invalidNumberMsg : Except String (Option Nat))) =
        Except.ok (some k) := h
    cases hp : parseNatStr s with
    | none => rw [hp] at h2; exact Except.noConfusion h2
    | some n =>
      rw [hp] at h2
      have h3 : (if 0 < n then Except.ok (some n)
          else (Except.error invalidNumberMsg : Except String (Option Nat))) =
          Except.ok (some k) := h2
      by_cases hn : 0 < n
      · rw [if_pos hn] at h3
        have hk := Option.some.inj (Except.ok.inj h3)
        omega
      · rw [if_neg hn] at h3
        exact Except.noConfusion h3

/-- The safety option parser only produces well-formed options: a present
limit or sample is positive. -/
theorem parseOptions_wf (o : UnsubscribeOpts) (s : SafetyOptions)
    (h : parseOptions o = Except.ok s) : safetyWf s := by
  unfold parseOptions at h
  split at h
  · exact Except.noConfusion h
  · cases hl : parseOptNat o.limit with
    | error m => rw [hl] at h; exact Except.noConfusion h
    | ok l =>
      rw [hl] at h
      cases hs : parseOptNat o.sample with
      | error m => rw [hs] at h; exact Except.noConfusion h
      | ok sm =>
        rw [hs] at h
        have hsv := Except.ok.inj h
        unfold safetyWf
        constructor
        · intro k hk
          rw [← hsv] at hk
          have hk2 : l = some k := hk
          rw [hk2] at hl
          exact parseOptNat_pos o.limit k hl
        · intro k hk
          rw [← hsv] at hk
          have hk2 : sm = some k := hk
          rw [hk2] at hs
          exact parseOptNat_pos o.sample k hs
